import Mathlib

/-!
Shallow embedding of `gen_blocks.go`, the block-registry generator of
MscBaiMeow/go-mc. The generator downloads a JSON catalogue of blocks
(`downloadInfo`), and on success prints a Go source file containing:
a header with `var BitsPerBlock = int(math.Ceil(math.Log2(float64(len(StateID)))))`,
the per-block variable declarations (`makeBlockDeclaration`), the `ByID`
map literal, and the `StateID` map literal (one entry per state ID in each
block's `[MinStateID, MaxStateID]` interval, with a special case for
`MinStateID == MaxStateID`).

Modelling conventions:
- `uint32` fields are modelled as `Nat`. The Go loop
  `for i := b.MinStateID; i <= b.MaxStateID; i++` is modelled by
  `List.range'`; the two agree whenever `MaxStateID < 2^32 - 1` (for
  `MaxStateID = 2^32 - 1` and `MinStateID < MaxStateID` the Go loop counter
  would wrap and the generator would never terminate; real catalogue values
  are far below this).
- The emitted map literals are modelled as association lists in emission
  order; `len(StateID)` of the generated map is the number of distinct keys.
- The external world (HTTP fetch, JSON decode) is an explicit input:
  a fetch failure or a decode failure each produce an `error` result.
- `strcase.ToCamel` (third-party) and the Go map iteration order over the
  `NeedsTools` field (nondeterministic in Go) are taken as parameters.
-/

namespace GenBlocks

/-- The `Block` record of `gen_blocks.go` (lines 25-41). `uint32` fields are
modelled as `Nat`, `float64` as `Float`, `map[uint32]bool` as an association
list. -/
structure Block where
  ID : Nat
  DisplayName : String
  Name : String
  Hardness : Float
  Diggable : Bool
  DropIDs : List Nat
  NeedsTools : List (Nat × Bool)
  MinStateID : Nat
  MaxStateID : Nat
  Transparent : Bool
  FilterLightLevel : Int
  EmitLightLevel : Int

/-- The general interval loop of lines 193-195:
`for i := b.MinStateID; i <= b.MaxStateID; i++ { print(i, b.ID) }`,
as the list of emitted `(stateID, blockID)` pairs. For `lo > hi` the loop
body never runs and the list is empty. -/
def loopEntries (lo hi bid : Nat) : List (Nat × Nat) :=
  (List.range' lo (hi + 1 - lo)).map fun i => (i, bid)

/-- The `StateID` entries emitted for one block (lines 190-196): a single
entry when `MinStateID == MaxStateID`, otherwise the interval loop. -/
def stateEntriesBlock (b : Block) : List (Nat × Nat) :=
  if b.MinStateID = b.MaxStateID then [(b.MinStateID, b.ID)]
  else loopEntries b.MinStateID b.MaxStateID b.ID

/-- All `StateID` entries emitted by the loop over blocks (lines 189-197),
in emission order. -/
def stateEntries (bs : List Block) : List (Nat × Nat) :=
  (bs.map stateEntriesBlock).flatten

/-- The keys of the emitted `StateID` map literal, in emission order. -/
def stateIDKeys (bs : List Block) : List Nat :=
  (stateEntries bs).map Prod.fst

/-- `len(StateID)` of the generated Go map: the number of distinct keys of
the emitted map literal. -/
def stateIDCard (bs : List Block) : Nat :=
  (stateIDKeys bs).dedup.length

/-- The `BitsPerBlock` value of the generated package (line 150):
`int(math.Ceil(math.Log2(float64(n))))` for `n = len(StateID)`.
For `n ≥ 1` the float64 computation yields exactly `⌈log₂ n⌉ = Nat.clog 2 n`
(`math.Log2` is exact on powers of two, and for other `n < 2^32` the
distance of `log₂ n` from the nearest integer far exceeds the rounding
error, so the ceiling is unaffected). For `n = 0`, `math.Log2(0) = -Inf`
and Go's float-to-int conversion is implementation-defined; on the
mainstream amd64/arm64 targets it yields the minimum int64, `-2^63`, which
is the value fixed here. -/
def bitsPerBlockOf (n : Nat) : Int :=
  if n = 0 then -(2 ^ 63) else (Nat.clog 2 n : Int)

/-- `BitsPerBlock` of the registry generated from catalogue `bs`. -/
def bitsPerBlock (bs : List Block) : Int :=
  bitsPerBlockOf (stateIDCard bs)

/-- The `ByID` map literal entries (lines 181-183): each block's `ID` mapped
to (a pointer to) the variable named `strcase.ToCamel(b.Name)`; the camel
transform is the parameter `tc`. -/
def byIDEntries (tc : String → String) (bs : List Block) : List (Nat × String) :=
  bs.map fun b => (b.ID, tc b.Name)

/-- The per-block variable declarations built by `makeBlockDeclaration`
(lines 57-132), abstracted to the data the claims need: the derived variable
name and the `NeedsTools` entries in the order produced by Go's
nondeterministic map iteration, supplied as the parameter `ord`. -/
def makeBlockDeclaration (tc : String → String)
    (ord : List (Nat × Bool) → List (Nat × Bool)) (bs : List Block) :
    List (String × List (Nat × Bool)) :=
  bs.map fun b => (tc b.Name, ord b.NeedsTools)

/-- Errors of `downloadInfo` (lines 43-55): a transport failure of
`http.Get`, or a JSON decoding failure. -/
inductive DownloadError where
  | fetchFailure (msg : String)
  | decodeFailure (msg : String)
deriving DecidableEq, Repr

/-- The complete generated output: the block declarations section, the
`ByID` section, the `StateID` section, and the `BitsPerBlock` value the
generated package computes from `len(StateID)`. -/
structure Output where
  blockDecls : List (String × List (Nat × Bool))
  byID : List (Nat × String)
  stateID : List (Nat × Nat)
  bits : Int
deriving Repr

/-- `downloadInfo` (lines 43-55): the outer `Except` is the HTTP fetch, the
inner one the JSON decode; either failure is returned as an error and no
block list is produced. -/
def downloadInfo (world : Except String (Except String (List Block))) :
    Except DownloadError (List Block) :=
  match world with
  | .error e => .error (.fetchFailure e)
  | .ok (.error e) => .error (.decodeFailure e)
  | .ok (.ok bs) => .ok bs

/-- The output-emission part of `main` (lines 141-198), run only after
`downloadInfo` succeeded. -/
def emitOutput (tc : String → String)
    (ord : List (Nat × Bool) → List (Nat × Bool)) (bs : List Block) : Output :=
  { blockDecls := makeBlockDeclaration tc ord bs
    byID := byIDEntries tc bs
    stateID := stateEntries bs
    bits := bitsPerBlock bs }

/-- `main` (lines 134-199): on a `downloadInfo` error it reports the error
and exits with status 1 before printing anything (modelled as `error` with
no `Output`); otherwise it emits the generated file. -/
def mainRun (tc : String → String)
    (ord : List (Nat × Bool) → List (Nat × Bool))
    (world : Except String (Except String (List Block))) :
    Except DownloadError Output :=
  match downloadInfo world with
  | .error e => .error e
  | .ok bs => .ok (emitOutput tc ord bs)

/-- Two closed intervals of distinct blocks do not share any integer. -/
def DisjointIntervals (a b : Block) : Prop :=
  a.MaxStateID < b.MinStateID ∨ b.MaxStateID < a.MinStateID

instance (a b : Block) : Decidable (DisjointIntervals a b) :=
  inferInstanceAs (Decidable (_ ∨ _))

/-- A sample block with the given `ID` and state interval; the remaining
fields take neutral values. -/
def mkBlock (bid lo hi : Nat) (nm : String) : Block :=
  { ID := bid, DisplayName := nm, Name := nm, Hardness := 0.0,
    Diggable := false, DropIDs := [], NeedsTools := [],
    MinStateID := lo, MaxStateID := hi,
    Transparent := false, FilterLightLevel := 0, EmitLightLevel := 0 }

/-! Helper lemmas about the emission functions. -/

theorem stateEntries_nil : stateEntries [] = [] := rfl

theorem stateEntries_cons (b : Block) (bs : List Block) :
    stateEntries (b :: bs) = stateEntriesBlock b ++ stateEntries bs := by
  simp [stateEntries]

theorem stateEntries_append (l₁ l₂ : List Block) :
    stateEntries (l₁ ++ l₂) = stateEntries l₁ ++ stateEntries l₂ := by
  simp [stateEntries]

/-- The single-entry special case emits exactly what the general loop would:
for `lo = hi` the loop runs once and prints the same pair. -/
theorem stateEntriesBlock_eq_loopEntries (b : Block) :
    stateEntriesBlock b = loopEntries b.MinStateID b.MaxStateID b.ID := by
  unfold stateEntriesBlock loopEntries
  by_cases h : b.MinStateID = b.MaxStateID
  · rw [if_pos h, h, Nat.add_sub_cancel_left]
    rfl
  · rw [if_neg h]

theorem mem_loopEntries {s i lo hi bid : Nat} :
    (s, i) ∈ loopEntries lo hi bid ↔ lo ≤ s ∧ s ≤ hi ∧ i = bid := by
  simp only [loopEntries, List.mem_map, List.mem_range'_1, Prod.mk.injEq]
  constructor
  · rintro ⟨x, ⟨h1, h2⟩, rfl, rfl⟩
    exact ⟨h1, by omega, rfl⟩
  · rintro ⟨h1, h2, rfl⟩
    exact ⟨s, ⟨h1, by omega⟩, rfl, rfl⟩

theorem mem_stateEntries {bs : List Block} {s i : Nat} :
    (s, i) ∈ stateEntries bs ↔
      ∃ b, b ∈ bs ∧ b.MinStateID ≤ s ∧ s ≤ b.MaxStateID ∧ i = b.ID := by
  simp only [stateEntries, List.mem_flatten, List.mem_map]
  constructor
  · rintro ⟨l, ⟨b, hb, rfl⟩, hmem⟩
    rw [stateEntriesBlock_eq_loopEntries] at hmem
    exact ⟨b, hb, mem_loopEntries.1 hmem⟩
  · rintro ⟨b, hb, h⟩
    refine ⟨stateEntriesBlock b, ⟨b, hb, rfl⟩, ?_⟩
    rw [stateEntriesBlock_eq_loopEntries]
    exact mem_loopEntries.2 h

theorem keys_stateEntriesBlock (b : Block) :
    (stateEntriesBlock b).map Prod.fst =
      List.range' b.MinStateID (b.MaxStateID + 1 - b.MinStateID) := by
  rw [stateEntriesBlock_eq_loopEntries]
  simp only [loopEntries, List.map_map]
  exact List.map_id _

theorem length_stateEntriesBlock (b : Block)
    (h : b.MinStateID ≤ b.MaxStateID) :
    (stateEntriesBlock b).length = b.MaxStateID - b.MinStateID + 1 := by
  rw [stateEntriesBlock_eq_loopEntries]
  simp only [loopEntries, List.length_map, List.length_range']
  omega

theorem length_stateEntries (bs : List Block)
    (h : ∀ b, b ∈ bs → b.MinStateID ≤ b.MaxStateID) :
    (stateEntries bs).length =
      (bs.map fun b => b.MaxStateID - b.MinStateID + 1).sum := by
  induction bs with
  | nil => rfl
  | cons b rest ih =>
    rw [stateEntries_cons, List.length_append, List.map_cons, List.sum_cons,
      length_stateEntriesBlock b (h b (List.mem_cons_self b rest)),
      ih fun x hx => h x (List.mem_cons_of_mem b hx)]

theorem mem_stateIDKeys {bs : List Block} {s : Nat} :
    s ∈ stateIDKeys bs ↔
      ∃ b, b ∈ bs ∧ b.MinStateID ≤ s ∧ s ≤ b.MaxStateID := by
  simp only [stateIDKeys, List.mem_map, Prod.exists]
  constructor
  · rintro ⟨x, i, hmem, rfl⟩
    obtain ⟨b, hb, h1, h2, _⟩ := mem_stateEntries.1 hmem
    exact ⟨b, hb, h1, h2⟩
  · rintro ⟨b, hb, h1, h2⟩
    exact ⟨s, b.ID, mem_stateEntries.2 ⟨b, hb, h1, h2, rfl⟩, rfl⟩

theorem nodup_stateIDKeys (bs : List Block)
    (h : bs.Pairwise DisjointIntervals) :
    (stateIDKeys bs).Nodup := by
  induction bs with
  | nil => exact List.nodup_nil
  | cons b rest ih =>
    obtain ⟨hhead, htail⟩ := List.pairwise_cons.1 h
    unfold stateIDKeys
    rw [stateEntries_cons, List.map_append]
    refine List.Nodup.append ?_ (ih htail) ?_
    · rw [keys_stateEntriesBlock]
      exact List.nodup_range' _ _
    · intro x hx1 hx2
      rw [keys_stateEntriesBlock, List.mem_range'_1] at hx1
      obtain ⟨b', hb', h1, h2⟩ := mem_stateIDKeys.1 hx2
      rcases hhead b' hb' with hlt | hlt <;> omega

theorem stateIDCard_of_disjoint (bs : List Block)
    (h : bs.Pairwise DisjointIntervals) :
    stateIDCard bs = (stateEntries bs).length := by
  unfold stateIDCard
  rw [List.dedup_eq_self.2 (nodup_stateIDKeys bs h)]
  simp [stateIDKeys]

/-- Characterisation of `Nat.clog 2` at concrete values away from the
boundary cases. -/
theorem clog2_eq_of (n k : Nat) (h1 : 2 ^ k < n) (h2 : n ≤ 2 ^ (k + 1)) :
    Nat.clog 2 n = k + 1 := by
  apply le_antisymm
  · exact (Nat.le_pow_iff_clog_le (by norm_num)).1 h2
  · exact (Nat.pow_lt_iff_lt_clog (by norm_num)).1 h1

/-- A block whose interval is empty in the Go ordering (`MaxStateID <
MinStateID`) contributes no `StateID` entry: the interval loop's guard
fails on the first iteration. -/
theorem stateEntriesBlock_eq_nil_of_lt (b : Block)
    (h : b.MaxStateID < b.MinStateID) : stateEntriesBlock b = [] := by
  rw [stateEntriesBlock_eq_loopEntries]
  unfold loopEntries
  have heq : b.MaxStateID + 1 - b.MinStateID = 0 := by omega
  rw [heq]
  rfl

/-- Any integer lying in the intervals of two distinct blocks of the
catalogue appears at least twice among the emitted `StateID` keys. -/
theorem two_le_count_stateIDKeys (bs : List Block) (a b : Block) (s : Nat)
    (hne : a ≠ b)
    (ha1 : a.MinStateID ≤ s) (ha2 : s ≤ a.MaxStateID)
    (hb1 : b.MinStateID ≤ s) (hb2 : s ≤ b.MaxStateID)
    (ha : a ∈ bs) (hb : b ∈ bs) :
    2 ≤ (stateIDKeys bs).count s := by
  have memA : s ∈ (stateEntriesBlock a).map Prod.fst := by
    rw [keys_stateEntriesBlock, List.mem_range'_1]
    omega
  have memB : s ∈ (stateEntriesBlock b).map Prod.fst := by
    rw [keys_stateEntriesBlock, List.mem_range'_1]
    omega
  revert ha hb
  induction bs with
  | nil => intro ha _; cases ha
  | cons c rest ih =>
    intro ha hb
    have hkeys : stateIDKeys (c :: rest)
        = (stateEntriesBlock c).map Prod.fst ++ stateIDKeys rest := by
      unfold stateIDKeys
      rw [stateEntries_cons, List.map_append]
    rw [hkeys, List.count_append]
    rcases List.mem_cons.1 ha with rfl | ha'
    · have hb' : b ∈ rest := by
        rcases List.mem_cons.1 hb with rfl | h
        · exact absurd rfl hne
        · exact h
      have c1 : 0 < ((stateEntriesBlock a).map Prod.fst).count s :=
        List.count_pos_iff.2 memA
      have c2 : 0 < (stateIDKeys rest).count s :=
        List.count_pos_iff.2 (mem_stateIDKeys.2 ⟨b, hb', hb1, hb2⟩)
      omega
    · rcases List.mem_cons.1 hb with rfl | hb'
      · have c1 : 0 < ((stateEntriesBlock b).map Prod.fst).count s :=
          List.count_pos_iff.2 memB
        have c2 : 0 < (stateIDKeys rest).count s :=
          List.count_pos_iff.2 (mem_stateIDKeys.2 ⟨a, ha', ha1, ha2⟩)
        omega
      · have := ih ha' hb'
        omega

/-! The claims. -/

/-- C1: every state ID in the interval of a block with
`MinStateID ≤ MaxStateID` is emitted with that block's ID (exactly one
association when `MinStateID = MaxStateID`), and every emitted association
comes from some block's interval — no state ID outside all intervals is
mapped to any block ID. -/
theorem spec_C1_state_index_round_trip (bs : List Block) :
    (∀ b, b ∈ bs → b.MinStateID ≤ b.MaxStateID →
      ∀ s, b.MinStateID ≤ s → s ≤ b.MaxStateID → (s, b.ID) ∈ stateEntries bs)
    ∧ (∀ b : Block, b.MinStateID = b.MaxStateID →
        stateEntriesBlock b = [(b.MinStateID, b.ID)])
    ∧ (∀ s i, (s, i) ∈ stateEntries bs →
        ∃ b, b ∈ bs ∧ b.MinStateID ≤ s ∧ s ≤ b.MaxStateID ∧ i = b.ID) := by
  refine ⟨?_, ?_, ?_⟩
  · intro b hb _ s h1 h2
    exact mem_stateEntries.2 ⟨b, hb, h1, h2, rfl⟩
  · intro b h
    unfold stateEntriesBlock
    rw [if_pos h]
  · intro s i h
    exact mem_stateEntries.1 h

/-- Witness for C1 on the catalogue `[{id 1, states [0,3]}]`: state 2 is
mapped to block 1. -/
theorem spec_C1_witness :
    (2, 1) ∈ stateEntries [mkBlock 1 0 3 "stone"] :=
  (spec_C1_state_index_round_trip [mkBlock 1 0 3 "stone"]).1
    (mkBlock 1 0 3 "stone") (List.mem_cons_self _ _) (by decide)
    2 (by decide) (by decide)

/-- C2: for `|StateIndex| ≥ 1` the emitted `BitsPerBlock` is exactly the
ceiling of log₂ of `|StateIndex|`: it is the minimum bit width `k` with
`|StateIndex| ≤ 2^k`; in particular it is 0 for one state and 3 for five
states. -/
theorem spec_C2_bits_per_block (bs : List Block)
    (h : 1 ≤ stateIDCard bs) :
    (0 ≤ bitsPerBlock bs
      ∧ stateIDCard bs ≤ 2 ^ (bitsPerBlock bs).toNat
      ∧ (∀ k : Nat, stateIDCard bs ≤ 2 ^ k → bitsPerBlock bs ≤ (k : Int)))
    ∧ (stateIDCard bs = 1 → bitsPerBlock bs = 0)
    ∧ (stateIDCard bs = 5 → bitsPerBlock bs = 3) := by
  have hn : stateIDCard bs ≠ 0 := by omega
  have hb : bitsPerBlock bs = (Nat.clog 2 (stateIDCard bs) : Int) := by
    unfold bitsPerBlock bitsPerBlockOf
    rw [if_neg hn]
  refine ⟨⟨?_, ?_, ?_⟩, ?_, ?_⟩
  · rw [hb]
    exact Int.natCast_nonneg _
  · rw [hb, Int.toNat_natCast]
    exact Nat.le_pow_clog (by norm_num) _
  · intro k hk
    rw [hb]
    exact_mod_cast (Nat.le_pow_iff_clog_le (by norm_num)).1 hk
  · intro h1
    rw [hb, h1, Nat.clog_one_right]
    norm_num
  · intro h5
    rw [hb, h5, clog2_eq_of 5 2 (by norm_num) (by norm_num)]
    norm_num

/-- Witness for C2 on the spec's scenario catalogue
`[{id 1, states [0,3]}, {id 2, states [4,4]}]`: five state IDs, three bits. -/
theorem spec_C2_witness :
    stateIDCard [mkBlock 1 0 3 "stone", mkBlock 2 4 4 "dirt"] = 5
    ∧ bitsPerBlock [mkBlock 1 0 3 "stone", mkBlock 2 4 4 "dirt"] = 3 :=
  ⟨by decide,
    (spec_C2_bits_per_block [mkBlock 1 0 3 "stone", mkBlock 2 4 4 "dirt"]
      (by decide)).2.2 (by decide)⟩

/-- C3 counterexample: on a catalogue containing a malformed block
(`MinStateID = 5 > 2 = MaxStateID`) the generator does not fail — it emits
a registry (there is no RangeError and no abort anywhere in the
generator). -/
theorem spec_C3_counterexample :
    (mainRun (fun s => s) (fun l => l)
      (Except.ok (Except.ok
        [mkBlock 1 0 3 "stone", mkBlock 7 5 2 "bad"]))).isOk = true
    ∧ stateEntries [mkBlock 1 0 3 "stone", mkBlock 7 5 2 "bad"]
        = [(0, 1), (1, 1), (2, 1), (3, 1)] := by
  constructor
  · rfl
  · decide

/-- C3 amended: a block with `MinStateID > MaxStateID` does not abort
compilation and raises no error: the generator emits no `StateID` entry
for it and still emits the registry. -/
theorem spec_C3_amended (tc : String → String)
    (ord : List (Nat × Bool) → List (Nat × Bool)) (bs : List Block)
    (b : Block) (h : b.MaxStateID < b.MinStateID) :
    (mainRun tc ord (Except.ok (Except.ok bs))).isOk = true
    ∧ stateEntriesBlock b = [] :=
  ⟨rfl, stateEntriesBlock_eq_nil_of_lt b h⟩

/-- Witness for the amended C3 at the malformed block `{id 7, min 5, max 2}`. -/
theorem spec_C3_amended_witness :
    (mainRun (fun s => s) (fun l => l)
      (Except.ok (Except.ok [mkBlock 7 5 2 "bad"]))).isOk = true
    ∧ stateEntriesBlock (mkBlock 7 5 2 "bad") = [] :=
  spec_C3_amended (fun s => s) (fun l => l) [mkBlock 7 5 2 "bad"]
    (mkBlock 7 5 2 "bad") (by decide)

/-- C4 counterexample: on the empty catalogue (zero state IDs) compilation
does not fail — no EmptyCatalogueError exists; a registry is emitted, and
its `BitsPerBlock` is the implementation-defined integer conversion of
`ceil(log2(0)) = -Inf`, not an error. -/
theorem spec_C4_counterexample :
    (mainRun (fun s => s) (fun l => l)
      (Except.ok (Except.ok ([] : List Block)))).isOk = true
    ∧ bitsPerBlock [] = -(2 ^ 63) := by
  constructor
  · rfl
  · decide

/-- C4 amended: when the catalogue yields `|StateIndex| = 0`, compilation
succeeds: the generator emits a registry with an empty `StateID` section
whose `BitsPerBlock` is the silently-coerced conversion of
`ceil(log2(0)) = -Inf` (the minimum int64 on the reference targets). -/
theorem spec_C4_amended (tc : String → String)
    (ord : List (Nat × Bool) → List (Nat × Bool)) (bs : List Block)
    (h : stateIDCard bs = 0) :
    (mainRun tc ord (Except.ok (Except.ok bs))).isOk = true
    ∧ (emitOutput tc ord bs).stateID = []
    ∧ (emitOutput tc ord bs).bits = -(2 ^ 63) := by
  have hkeys : stateIDKeys bs = [] :=
    (List.dedup_eq_nil _).1 (List.length_eq_zero.1 h)
  have hse : stateEntries bs = [] := List.map_eq_nil_iff.1 hkeys
  refine ⟨rfl, hse, ?_⟩
  show bitsPerBlock bs = _
  unfold bitsPerBlock
  rw [h]
  decide

/-- Witness for the amended C4 at the empty catalogue. -/
theorem spec_C4_amended_witness :
    (mainRun (fun s => s) (fun l => l)
      (Except.ok (Except.ok ([] : List Block)))).isOk = true
    ∧ (emitOutput (fun s => s) (fun l => l) ([] : List Block)).stateID = []
    ∧ (emitOutput (fun s => s) (fun l => l) ([] : List Block)).bits
        = -(2 ^ 63) :=
  spec_C4_amended (fun s => s) (fun l => l) [] (by decide)

/-- C5 counterexample: with the spec's overlapping intervals `[0,3]` and
`[2,5]` the generator succeeds (no OverlapError) and emits the state ID 2
twice — the duplicate is not detected. -/
theorem spec_C5_counterexample :
    (mainRun (fun s => s) (fun l => l)
      (Except.ok (Except.ok
        [mkBlock 1 0 3 "stone", mkBlock 2 2 5 "dirt"]))).isOk = true
    ∧ (stateIDKeys [mkBlock 1 0 3 "stone", mkBlock 2 2 5 "dirt"]).count 2
        = 2 := by
  constructor
  · rfl
  · decide

/-- C5 amended: overlapping intervals of two distinct blocks are not
detected: compilation succeeds with no OverlapError, and every shared
state ID is emitted at least twice as a `StateID` key, so the generated Go
map literal carries duplicate keys. -/
theorem spec_C5_amended (tc : String → String)
    (ord : List (Nat × Bool) → List (Nat × Bool)) (bs : List Block)
    (a b : Block) (s : Nat) (hne : a ≠ b)
    (ha1 : a.MinStateID ≤ s) (ha2 : s ≤ a.MaxStateID)
    (hb1 : b.MinStateID ≤ s) (hb2 : s ≤ b.MaxStateID)
    (ha : a ∈ bs) (hb : b ∈ bs) :
    (mainRun tc ord (Except.ok (Except.ok bs))).isOk = true
    ∧ 2 ≤ (stateIDKeys bs).count s :=
  ⟨rfl, two_le_count_stateIDKeys bs a b s hne ha1 ha2 hb1 hb2 ha hb⟩

/-- Witness for the amended C5 at the overlap scenario. -/
theorem spec_C5_amended_witness :
    (mainRun (fun s => s) (fun l => l)
      (Except.ok (Except.ok
        [mkBlock 1 0 3 "stone", mkBlock 2 2 5 "dirt"]))).isOk = true
    ∧ 2 ≤ (stateIDKeys [mkBlock 1 0 3 "stone", mkBlock 2 2 5 "dirt"]).count 2 :=
  spec_C5_amended (fun s => s) (fun l => l)
    [mkBlock 1 0 3 "stone", mkBlock 2 2 5 "dirt"]
    (mkBlock 1 0 3 "stone") (mkBlock 2 2 5 "dirt") 2
    (fun h => absurd (congrArg Block.ID h) (by decide))
    (by decide) (by decide) (by decide) (by decide)
    (List.mem_cons_self _ _)
    (List.mem_cons_of_mem _ (List.mem_cons_self _ _))

/-- C6: for a catalogue whose blocks all have `MinStateID ≤ MaxStateID`
with pairwise-disjoint intervals, the number of entries of the emitted
`StateID` index equals the sum over blocks of `MaxStateID - MinStateID + 1`
(the emitted keys are pairwise distinct, so entry count and distinct-key
count agree). -/
theorem spec_C6_state_index_size (bs : List Block)
    (h1 : ∀ b, b ∈ bs → b.MinStateID ≤ b.MaxStateID)
    (h2 : bs.Pairwise DisjointIntervals) :
    stateIDCard bs = (bs.map fun b => b.MaxStateID - b.MinStateID + 1).sum
    ∧ (stateIDKeys bs).Nodup := by
  refine ⟨?_, nodup_stateIDKeys bs h2⟩
  rw [stateIDCard_of_disjoint bs h2, length_stateEntries bs h1]

/-- Witness for C6 on the two-block scenario catalogue. -/
theorem spec_C6_witness :
    stateIDCard [mkBlock 1 0 3 "stone", mkBlock 2 4 4 "dirt"]
      = ([mkBlock 1 0 3 "stone", mkBlock 2 4 4 "dirt"].map
          fun b => b.MaxStateID - b.MinStateID + 1).sum
    ∧ (stateIDKeys [mkBlock 1 0 3 "stone", mkBlock 2 4 4 "dirt"]).Nodup :=
  spec_C6_state_index_size [mkBlock 1 0 3 "stone", mkBlock 2 4 4 "dirt"]
    (by decide) (by decide)

/-- C7: if the catalogue fetch or decode fails, `main` propagates the error
and produces no registry output at all — the result carries no `Output`
value, so no partial `ByID`, `StateID` or `BitsPerBlock` content exists. -/
theorem spec_C7_fetch_failure (tc : String → String)
    (ord : List (Nat × Bool) → List (Nat × Bool))
    (world : Except String (Except String (List Block)))
    (e : DownloadError) (h : downloadInfo world = Except.error e) :
    mainRun tc ord world = Except.error e := by
  unfold mainRun
  rw [h]

/-- Witness for C7 on a concrete transport failure. -/
theorem spec_C7_witness :
    mainRun (fun s => s) (fun l => l) (Except.error "connection refused")
      = Except.error (DownloadError.fetchFailure "connection refused") :=
  spec_C7_fetch_failure (fun s => s) (fun l => l)
    (Except.error "connection refused")
    (DownloadError.fetchFailure "connection refused") rfl

/-- C8: the `ByID` and `StateID` sections are emitted by deterministic
iteration over the block slice; the only nondeterminism of the generator
after a successful download is Go's map iteration order over `NeedsTools`
(the `ord` parameter), and two runs with arbitrary such orders emit
identical `ByID` and identical `StateID` contents. -/
theorem spec_C8_idempotent (tc : String → String)
    (ord₁ ord₂ : List (Nat × Bool) → List (Nat × Bool)) (bs : List Block) :
    (emitOutput tc ord₁ bs).byID = (emitOutput tc ord₂ bs).byID
    ∧ (emitOutput tc ord₁ bs).stateID = (emitOutput tc ord₂ bs).stateID :=
  ⟨rfl, rfl⟩

/-- C9: for a block with `MinStateID = MaxStateID` the special-cased
single-entry emission equals what the general interval loop would emit. -/
theorem spec_C9_single_point_equiv (b : Block)
    (_h : b.MinStateID = b.MaxStateID) :
    stateEntriesBlock b = loopEntries b.MinStateID b.MaxStateID b.ID :=
  stateEntriesBlock_eq_loopEntries b

/-- Witness for C9 at the single-point block `{id 2, states [4,4]}`. -/
theorem spec_C9_witness :
    stateEntriesBlock (mkBlock 2 4 4 "dirt")
      = loopEntries (mkBlock 2 4 4 "dirt").MinStateID
          (mkBlock 2 4 4 "dirt").MaxStateID (mkBlock 2 4 4 "dirt").ID :=
  spec_C9_single_point_equiv (mkBlock 2 4 4 "dirt") (by decide)

/-- C10: a block with `MinStateID > MaxStateID` contributes zero `StateID`
entries, and the entries emitted for the whole catalogue are exactly those
emitted with that block removed. -/
theorem spec_C10_malformed_block_skipped (bs₁ bs₂ : List Block) (b : Block)
    (h : b.MaxStateID < b.MinStateID) :
    stateEntriesBlock b = []
    ∧ stateEntries (bs₁ ++ b :: bs₂) = stateEntries (bs₁ ++ bs₂) := by
  have hz := stateEntriesBlock_eq_nil_of_lt b h
  refine ⟨hz, ?_⟩
  rw [stateEntries_append, stateEntries_cons, hz, List.nil_append,
    stateEntries_append]

/-- Witness for C10: dropping the malformed block `{id 7, min 5, max 2}`
from the middle of a catalogue leaves the emission unchanged. -/
theorem spec_C10_witness :
    stateEntriesBlock (mkBlock 7 5 2 "bad") = []
    ∧ stateEntries ([mkBlock 1 0 3 "stone"]
          ++ mkBlock 7 5 2 "bad" :: [mkBlock 2 4 4 "dirt"])
        = stateEntries ([mkBlock 1 0 3 "stone"] ++ [mkBlock 2 4 4 "dirt"]) :=
  spec_C10_malformed_block_skipped [mkBlock 1 0 3 "stone"]
    [mkBlock 2 4 4 "dirt"] (mkBlock 7 5 2 "bad") (by decide)

end GenBlocks
